import Mathlib

/-!
Verification of the Nyx-Monitor monitoring/response engine specification
against a shallow Lean embedding of the Rust sources under `src-tauri/src`.

Modelling conventions:
* Rust `u8`/`u16`/`usize` counters are `Nat`; where 16-bit overflow matters
  (release-mode wrapping in `Iterator::sum::<u16>()`) the reduction
  `% 65536` is made explicit.
* `f32` CPU percentages and confidences are modelled as `ℚ`; every literal
  appearing in the relevant code paths (90.0, 5.0, 1.8, 0.1, 0.99, /100)
  is an exact small rational.
* RFC3339 timestamp strings and `chrono` instants are modelled as `Int`
  epoch seconds (`num_seconds` comparisons are integer-second
  comparisons); millisecond ids reuse the same clock value.
* `HashMap` fields are association lists with first-match `List.lookup`
  semantics; insertion removes the old binding and conses the new one.
* Clock reads (`Utc::now()`) are passed explicitly as a parameter.
* The external actuator (`response_engine::execute_action`, which shells
  out) is passed as an explicit `Except String String` outcome parameter.
* Disk persistence (`persist`) is treated as always succeeding.
-/

namespace NyxMonitor

/-! ## Data model (models.rs) -/

inductive RiskLevel
  | Legitimate
  | Unknown
  | Suspicious
deriving DecidableEq, Repr

inductive ThreatVerdict
  | Benign
  | LowRisk
  | Suspicious
  | LikelyMalicious
  | ConfirmedMalicious
deriving DecidableEq, Repr

inductive TrustLevel
  | WindowsNative
  | Trusted
  | Unknown
deriving DecidableEq, Repr

inductive DetectionProfile
  | Conservative
  | Balanced
  | Aggressive
deriving DecidableEq, Repr

inductive AlertSeverity
  | Info
  | Warn
  | Critical
deriving DecidableEq, Repr

inductive AlertStatus
  | Active
  | Acknowledged
  | Deleted
deriving DecidableEq, Repr

inductive EventSeverity
  | Info
  | Warn
  | Critical
deriving DecidableEq, Repr

inductive ResponseMode
  | Audit
  | Constrain
deriving DecidableEq, Repr

inductive ResponseActionType
  | SuspendProcess
  | BlockProcessNetwork
  | TerminateProcess
deriving DecidableEq, Repr

structure SuspicionAssessment where
  level : RiskLevel
  score : Nat
  reasons : List String
  confidence : ℚ
deriving DecidableEq, Repr

structure ProcessMetric where
  pid : Nat
  ppid : Option Nat
  name : String
  exe_path : Option String
  user : Option String
  cpu_pct : ℚ
  trust_level : TrustLevel
  trust_label : Option String
  suspicion : SuspicionAssessment
  risk_score : Nat
  verdict : ThreatVerdict
deriving DecidableEq, Repr

structure Alert where
  id : String
  alert_type : String
  severity : AlertSeverity
  pid : Option Nat
  title : String
  description : String
  evidence : List String
  timestamp : Int
  status : AlertStatus
deriving DecidableEq, Repr

structure CpuSpikeConfig where
  threshold_pct : ℚ
  min_consecutive_samples : Nat
  /-- `deviation_ratio` in the source. -/
  deviation : ℚ
deriving DecidableEq, Repr

structure ResponsePolicy where
  mode : ResponseMode
  auto_constrain_threshold : Nat
  safe_mode : Bool
  allow_terminate : Bool
  cooldown_seconds : Nat
deriving DecidableEq, Repr

structure ResponseActionRecord where
  id : String
  timestamp_utc : Int
  action_type : ResponseActionType
  mode : ResponseMode
  pid : Nat
  process_name : String
  success : Bool
  automatic : Bool
  score : Nat
  verdict : ThreatVerdict
  reason : String
  details : String
deriving DecidableEq, Repr

structure ProcessIdentity where
  pid : Nat
  ppid : Option Nat
  image_name : String
  image_path : Option String
  cmdline : Option String
  user : Option String
deriving DecidableEq, Repr

structure NetworkEvidence where
  protocol : String
  local_address : String
  remote_address : String
  state : Option String
  pid : Nat
deriving DecidableEq, Repr

structure RegistryEvidence where
  key_path : String
  value_name : String
  old_value : Option String
  new_value : Option String
  operation : String
deriving DecidableEq, Repr

structure EventEnvelope where
  event_id : String
  host_id : String
  timestamp_utc : Int
  event_type : String
  sensor : String
  severity : EventSeverity
  message : String
  process : Option ProcessIdentity
  network : Option NetworkEvidence
  registry : Option RegistryEvidence
  rule_hits : List String
  risk_score : Option Nat
  verdict : Option String
  evidence_refs : List String
deriving DecidableEq, Repr

/-! ## String helpers -/

/-- Rust `str::to_lowercase` (character-wise, over the char list so that
it reduces in the kernel; the strings in play are ASCII). -/
def strToLower (s : String) : String := String.mk (s.data.map Char.toLower)

/-- Rust `str::trim`: strip leading and trailing whitespace. -/
def strTrim (s : String) : String :=
  String.mk (((s.data.dropWhile Char.isWhitespace).reverse.dropWhile
    Char.isWhitespace).reverse)

/-- Rust `str::contains` (substring containment). -/
def strContainsSub (hay pat : String) : Bool :=
  hay.data.tails.any (fun t => pat.data.isPrefixOf t)

/-- Rust `str::starts_with`. -/
def strStartsWith (hay pat : String) : Bool := pat.data.isPrefixOf hay.data

/-- Rust `u8::saturating_add` on the accumulated suspicion score. -/
def satAdd8 (a b : Nat) : Nat := min (a + b) 255

/-- Rust `f32::clamp` (modelled over ℚ; total as `lo ≤ hi` always holds here). -/
def ratClamp (x lo hi : ℚ) : ℚ := min (max x lo) hi

/-! ## Suspicion scorer and verdict classifier (detection/mod.rs) -/

def SCRIPT_HOSTS : List String :=
  ["powershell.exe", "cmd.exe", "wscript.exe", "cscript.exe", "rundll32.exe", "mshta.exe"]

def OFFICE_PARENTS : List String :=
  ["winword.exe", "excel.exe", "powerpnt.exe", "outlook.exe", "acrord32.exe"]

def profile_thresholds : DetectionProfile → Nat × Nat
  | DetectionProfile.Conservative => (85, 45)
  | DetectionProfile.Balanced => (70, 35)
  | DetectionProfile.Aggressive => (55, 25)

/-- The level cascade at the end of `assess_process`:
`score >= suspicious_threshold → Suspicious`, else
`score >= unknown_threshold → Unknown`, else `Legitimate`. -/
def level_for (score suspicious_threshold unknown_threshold : Nat) : RiskLevel :=
  if suspicious_threshold ≤ score then RiskLevel.Suspicious
  else if unknown_threshold ≤ score then RiskLevel.Unknown
  else RiskLevel.Legitimate

/-- The score/reason accumulation of `detection::assess_process`
(detection/mod.rs:32-68): the sequence of saturating additions driven by
the path, parent, signature and cpu-spike signals. -/
def assess_score_reasons (metric : ProcessMetric) (parent_name : Option String)
    (is_signed : Option Bool) (cpu_spike : Bool) : Nat × List String :=
  let name := strToLower metric.name
  let parent := strToLower (parent_name.getD "")
  let st0 : Nat × List String := (0, [])
  let st1 :=
    match metric.exe_path with
    | none => st0
    | some path =>
      let path_lower := strToLower path
      let stA :=
        if strContainsSub path_lower "\\appdata\\local\\temp"
            || strContainsSub path_lower "\\windows\\temp"
            || strContainsSub path_lower "\\temp\\" then
          (satAdd8 st0.1 45, st0.2 ++ ["Executable running from temporary directory"])
        else st0
      if strContainsSub path_lower "\\appdata\\roaming\\"
          && SCRIPT_HOSTS.any (fun host => host == name) then
        (satAdd8 stA.1 30, stA.2 ++ ["Script host launched from roaming profile path"])
      else stA
  let st2 :=
    if SCRIPT_HOSTS.any (fun host => host == name)
        && OFFICE_PARENTS.any (fun p => p == parent) then
      (satAdd8 st1.1 40,
        st1.2 ++ ["Suspicious parent-child relation: office app spawning script host"])
    else st1
  let st3 :=
    if is_signed == some false then
      (satAdd8 st2.1 35, st2.2 ++ ["Binary is unsigned or signature is invalid"])
    else st2
  let st4 :=
    if cpu_spike then
      (satAdd8 st3.1 12,
        st3.2 ++ ["Sustained CPU spike above baseline (performance anomaly)"])
    else st3
  st4

/-- `detection::assess_process` (detection/mod.rs:25-91): accumulate the
score and reasons, derive the level from the profile thresholds, and set
confidence to `clamp(score/100, 0.1, 0.99)`. -/
def assess_process (metric : ProcessMetric) (parent_name : Option String)
    (is_signed : Option Bool) (cpu_spike : Bool) (profile : DetectionProfile) :
    SuspicionAssessment :=
  let st4 := assess_score_reasons metric parent_name is_signed cpu_spike
  let thresholds := profile_thresholds profile
  let level := level_for st4.1 thresholds.1 thresholds.2
  let confidence := ratClamp ((st4.1 : ℚ) / 100) (1 / 10) (99 / 100)
  { level := level, score := st4.1, reasons := st4.2, confidence := confidence }

/-- `detection::build_alert` (detection/mod.rs:93-131); the clock is the
explicit `now` parameter (used for both the millisecond id and the
timestamp). -/
def build_alert (metric : ProcessMetric) (assessment : SuspicionAssessment)
    (cpu_spike : Bool) (now : Int) : Option Alert :=
  if assessment.level ≠ RiskLevel.Suspicious ∧ cpu_spike = false then
    none
  else
    let choice :=
      if cpu_spike then
        (AlertSeverity.Warn,
          "High CPU sustained in " ++ metric.name,
          "Process " ++ metric.name ++ " (PID " ++ toString metric.pid
            ++ ") exceeded configured CPU threshold for multiple samples",
          "cpu_spike")
      else
        (AlertSeverity.Critical,
          "Suspicious process detected: " ++ metric.name,
          "Process " ++ metric.name ++ " (PID " ++ toString metric.pid
            ++ ") matched conservative suspicious behavior rules",
          "suspicious_process")
    some
      { id := choice.2.2.2 ++ "-" ++ toString metric.pid ++ "-" ++ toString now,
        alert_type := choice.2.2.2,
        severity := choice.1,
        pid := some metric.pid,
        title := choice.2.1,
        description := choice.2.2.1,
        evidence := assessment.reasons,
        timestamp := now,
        status := AlertStatus.Active }

/-- `detection::classify_threat_verdict` (detection/mod.rs:133-165). -/
def classify_threat_verdict (score : Nat) (base_level : RiskLevel)
    (trust_level : TrustLevel) (correlation_count : Nat)
    (internal_process : Bool) : ThreatVerdict :=
  if internal_process then ThreatVerdict.Benign
  else if base_level = RiskLevel.Legitimate then
    if 55 ≤ score then ThreatVerdict.LowRisk else ThreatVerdict.Benign
  else
    let untrusted := trust_level = TrustLevel.Unknown
    if 95 ≤ score ∧ base_level = RiskLevel.Suspicious ∧ untrusted ∧ 2 ≤ correlation_count then
      ThreatVerdict.ConfirmedMalicious
    else if 86 ≤ score ∧ base_level = RiskLevel.Suspicious ∧ untrusted ∧ 1 ≤ correlation_count then
      ThreatVerdict.LikelyMalicious
    else if 70 ≤ score ∧ base_level = RiskLevel.Suspicious then
      ThreatVerdict.Suspicious
    else if 35 ≤ score then
      ThreatVerdict.LowRisk
    else
      ThreatVerdict.Benign

/-- The verdict table exactly as the claim words it: a guarded cascade of
internal → Benign; Legitimate → LowRisk/Benign by score ≥ 55;
Suspicious ∧ untrusted ∧ score ≥ 95 ∧ correlations ≥ 2 → ConfirmedMalicious;
Suspicious ∧ untrusted ∧ score ≥ 86 ∧ correlations ≥ 1 → LikelyMalicious;
Suspicious ∧ score ≥ 70 → Suspicious; score ≥ 35 → LowRisk; else Benign. -/
def classify_threat_verdict_claim (score : Nat) (base_level : RiskLevel)
    (trust_level : TrustLevel) (correlation_count : Nat)
    (internal_process : Bool) : ThreatVerdict :=
  if internal_process then ThreatVerdict.Benign
  else if base_level = RiskLevel.Legitimate then
    if 55 ≤ score then ThreatVerdict.LowRisk else ThreatVerdict.Benign
  else if base_level = RiskLevel.Suspicious ∧ trust_level = TrustLevel.Unknown
      ∧ 95 ≤ score ∧ 2 ≤ correlation_count then
    ThreatVerdict.ConfirmedMalicious
  else if base_level = RiskLevel.Suspicious ∧ trust_level = TrustLevel.Unknown
      ∧ 86 ≤ score ∧ 1 ≤ correlation_count then
    ThreatVerdict.LikelyMalicious
  else if base_level = RiskLevel.Suspicious ∧ 70 ≤ score then
    ThreatVerdict.Suspicious
  else if 35 ≤ score then
    ThreatVerdict.LowRisk
  else
    ThreatVerdict.Benign

/-- `detection::compute_risk_score` (detection/mod.rs:167-175).
The bonus sum is a `u16` iterator sum, which wraps modulo 2^16 in a
release build; `saturating_add` on the `u16` total is `min · 65535`. -/
def compute_risk_score (base_score : Nat) (correlation_bonuses : List Nat) : Nat :=
  let correlation_total := min (correlation_bonuses.sum % 65536) 22
  let total := min (base_score + correlation_total) 65535
  min total 100

/-! ## CPU-spike detector (app_state.rs `update_cpu_and_check_spike`) -/

/-- `RuntimeState::update_cpu_and_check_spike` (app_state.rs:570-610) for a
single PID: the stored history (`VecDeque`, oldest first) is the explicit
`hist` argument and the updated history is returned alongside the spike
flag.  The `while len > 120 pop_front` loop is `drop (len - 120)`. -/
def update_cpu_and_check_spike (config : CpuSpikeConfig) (hist : List ℚ)
    (sample : ℚ) : Bool × List ℚ :=
  let pushed := hist ++ [sample]
  let samples := pushed.drop (pushed.length - 120)
  if samples.length < config.min_consecutive_samples then
    (false, samples)
  else
    let recent := samples.reverse.take config.min_consecutive_samples
    if ¬ recent.all (fun value => config.threshold_pct ≤ value) then
      (false, samples)
    else
      let recent_avg := recent.sum / (recent.length : ℚ)
      let prior_len := samples.length - config.min_consecutive_samples
      if prior_len < 5 then
        (decide (config.threshold_pct + 5 < recent_avg), samples)
      else
        let prior_avg := (samples.take prior_len).sum / (prior_len : ℚ)
        (decide (prior_avg * config.deviation < recent_avg), samples)

/-- The sustained-spike condition on a stored history, as the (amended)
claim words it: length at least `min_consecutive_samples`, the most recent
`min_consecutive_samples` samples all at or above `threshold_pct`, and
either the prior history is shorter than 5 samples and the recent average
exceeds `threshold_pct + 5`, or the prior history has at least 5 samples
and the recent average exceeds `prior_avg × deviation_ratio`. -/
def spike_condition (config : CpuSpikeConfig) (samples : List ℚ) : Prop :=
  let recent := samples.reverse.take config.min_consecutive_samples
  let recent_avg := recent.sum / (recent.length : ℚ)
  let prior_len := samples.length - config.min_consecutive_samples
  let prior_avg := (samples.take prior_len).sum / (prior_len : ℚ)
  config.min_consecutive_samples ≤ samples.length ∧
    (∀ value ∈ recent, config.threshold_pct ≤ value) ∧
    ((prior_len < 5 ∧ config.threshold_pct + 5 < recent_avg) ∨
      (5 ≤ prior_len ∧ prior_avg * config.deviation < recent_avg))

/-- Folding a sequence of pushed samples through the detector, starting
from an empty per-PID history; returns the final flag and history. -/
def push_cpu_samples (config : CpuSpikeConfig) (samples : List ℚ) : Bool × List ℚ :=
  samples.foldl (fun st sample => update_cpu_and_check_spike config st.2 sample) (false, [])

/-! ## Response engine (response_engine.rs, app_state.rs) -/

def CRITICAL_PROCESS_NAMES : List String :=
  ["system", "registry", "smss.exe", "csrss.exe", "wininit.exe",
   "services.exe", "lsass.exe", "winlogon.exe", "explorer.exe", "dwm.exe"]

/-- `response_engine::is_critical_process` (response_engine.rs:18-33). -/
def is_critical_process (name : String) (path : Option String) : Bool :=
  let lower_name := strToLower name
  if CRITICAL_PROCESS_NAMES.any (fun item => item == lower_name) then true
  else
    (path.map (fun value =>
      let lower := strToLower value
      strStartsWith lower "c:\\windows\\system32\\"
        && (strContainsSub lower "\\csrss.exe"
          || strContainsSub lower "\\wininit.exe"
          || strContainsSub lower "\\services.exe"
          || strContainsSub lower "\\lsass.exe"
          || strContainsSub lower "\\winlogon.exe"))).getD false

/-- `app_state::action_type_label` (app_state.rs:968-974). -/
def action_type_label : ResponseActionType → String
  | ResponseActionType.SuspendProcess => "suspend_process"
  | ResponseActionType.BlockProcessNetwork => "block_process_network"
  | ResponseActionType.TerminateProcess => "terminate_process"

/-- The `"{pid}:{label}"` key of the action-cooldown map. -/
def cooldown_key (pid : Nat) (action_type : ResponseActionType) : String :=
  toString pid ++ ":" ++ action_type_label action_type

/-- `RuntimeState::is_action_allowed_by_cooldown` (app_state.rs:465-486). -/
def is_action_allowed_by_cooldown (cooldowns : List (String × Int)) (now : Int)
    (pid : Nat) (action_type : ResponseActionType) (cooldown_seconds : Nat) : Bool :=
  match cooldowns.lookup (cooldown_key pid action_type) with
  | none => true
  | some last => (cooldown_seconds : Int) ≤ now - last

/-- `RuntimeState::update_action_cooldown` (app_state.rs:488-495);
`HashMap::insert` replaces the binding for the key. -/
def update_action_cooldown (cooldowns : List (String × Int)) (now : Int)
    (pid : Nat) (action_type : ResponseActionType) : List (String × Int) :=
  (cooldown_key pid action_type, now)
    :: cooldowns.filter (fun kv => kv.1 ≠ cooldown_key pid action_type)

/-- `RuntimeState::run_response_action` (app_state.rs:317-438).
`metrics` is the current process snapshot, `cooldowns` the action-cooldown
map, `now` the clock, and `execution` the outcome of the external actuator
dispatch (`response_engine::execute_action`).  The result carries the
stored record and the cooldown map after the call; the emitted
`response_action` event and the persisted record list do not affect the
claims under verification and are not returned. -/
def run_response_action (metrics : List ProcessMetric) (policy : ResponsePolicy)
    (cooldowns : List (String × Int)) (now : Int) (pid : Nat)
    (action_type : ResponseActionType) (reason : Option String) (automatic : Bool)
    (execution : Except String String) :
    Except String (ResponseActionRecord × List (String × Int)) :=
  match metrics.find? (fun item => item.pid == pid) with
  | none => Except.error ("process pid " ++ toString pid ++ " not found")
  | some metric =>
    let reason_text :=
      ((reason.map strTrim).filter (fun value => value != "")).getD "manual action"
    if automatic = true ∧ policy.mode ≠ ResponseMode.Constrain then
      Except.error "automatic constrain blocked because policy mode is audit"
    else if policy.safe_mode = true
        ∧ is_critical_process metric.name metric.exe_path = true then
      Except.error ("safe mode blocked action on critical process "
        ++ metric.name ++ " (" ++ toString metric.pid ++ ")")
    else if action_type = ResponseActionType.TerminateProcess
        ∧ policy.allow_terminate = false then
      Except.error "terminate action blocked by policy (allow_terminate=false)"
    else if automatic = true
        ∧ is_action_allowed_by_cooldown cooldowns now pid action_type
            policy.cooldown_seconds = false then
      Except.error "automatic action skipped by cooldown guardrail"
    else
      let outcome :=
        match execution with
        | Except.ok msg => (true, msg)
        | Except.error err => (false, err)
      let record : ResponseActionRecord :=
        { id := "response-" ++ toString pid ++ "-" ++ action_type_label action_type
            ++ "-" ++ toString now,
          timestamp_utc := now,
          action_type := action_type,
          mode := policy.mode,
          pid := pid,
          process_name := metric.name,
          success := outcome.1,
          automatic := automatic,
          score := metric.risk_score,
          verdict := metric.verdict,
          reason := reason_text,
          details := outcome.2 }
      let cooldowns2 :=
        if automatic then update_action_cooldown cooldowns now pid action_type
        else cooldowns
      Except.ok (record, cooldowns2)

/-! ## Alert pipeline (app_state.rs, storage/mod.rs AlertStore) -/

/-- The lowercased `format!("{:?}", severity)` label. -/
def severity_label : AlertSeverity → String
  | AlertSeverity.Info => "info"
  | AlertSeverity.Warn => "warn"
  | AlertSeverity.Critical => "critical"

/-- `app_state::alert_signature` (app_state.rs:976-984):
`"{alert_type}:{pid|0}:{lowercased title}:{lowercased severity}"`. -/
def alert_signature (alert : Alert) : String :=
  alert.alert_type ++ ":" ++ toString (alert.pid.getD 0) ++ ":"
    ++ strToLower alert.title ++ ":" ++ severity_label alert.severity

/-- `app_state::is_recent` (app_state.rs:935-944); timestamps are modelled
as integer epoch seconds, so the RFC3339 parse always succeeds and
`num_seconds().abs() <= window` is `|now - ts| ≤ window`. -/
def is_recent (timestamp : Int) (window_seconds : Int) (now : Int) : Bool :=
  decide (|now - timestamp| ≤ window_seconds)

/-- `AlertStore::history` (storage/mod.rs:68-72): a clone of the alert
list sorted newest-first by timestamp (a stable sort, modelled by
`insertionSort`). -/
def alert_history (alerts : List Alert) : List Alert :=
  alerts.insertionSort (fun a b => b.timestamp ≤ a.timestamp)

/-- The shared alert-pipeline state: the `AlertStore`'s alert list and the
`dismissed_alerts` signature → instant map. -/
structure AlertState where
  alerts : List Alert
  dismissed : List (String × Int)
deriving DecidableEq, Repr

/-- `RuntimeState::is_alert_suppressed` (app_state.rs:826-844).  The prune
(`retain`) mutates the dismissed map, so the pruned map is returned with
the verdict. -/
def is_alert_suppressed (dismissed : List (String × Int)) (now : Int)
    (alert : Alert) : Bool × List (String × Int) :=
  let signature := alert_signature alert
  let pruned := dismissed.filter (fun kv => now - kv.2 < 300)
  let hit :=
    match pruned.lookup signature with
    | none => false
    | some timestamp => decide (now - timestamp < 300)
  (hit, pruned)

/-- `RuntimeState::add_alert_if_new` (app_state.rs:639-655), returning the
accept verdict and the updated state. -/
def add_alert_if_new (st : AlertState) (now : Int) (alert : Alert) :
    Bool × AlertState :=
  let sup := is_alert_suppressed st.dismissed now alert
  if sup.1 then (false, { st with dismissed := sup.2 })
  else
    let duplicate := (alert_history st.alerts).any (fun existing =>
      existing.pid == alert.pid
        && existing.alert_type == alert.alert_type
        && existing.title == alert.title
        && is_recent existing.timestamp 120 now)
    if duplicate then (false, { st with dismissed := sup.2 })
    else (true, { alerts := st.alerts ++ [alert], dismissed := sup.2 })

/-- `RuntimeState::mark_alert_dismissed` (app_state.rs:846-853);
`HashMap::insert` replaces the binding for the signature. -/
def mark_alert_dismissed (dismissed : List (String × Int)) (now : Int)
    (alert : Alert) : List (String × Int) :=
  (alert_signature alert, now)
    :: dismissed.filter (fun kv => kv.1 ≠ alert_signature alert)

/-- `RuntimeState::delete_alert` (app_state.rs:665-679) composed with
`AlertStore::delete` (storage/mod.rs:74-82). -/
def delete_alert (st : AlertState) (now : Int) (alert_id : String) :
    Bool × AlertState :=
  let deleted_alert := (alert_history st.alerts).find? (fun alert =>
    alert.id == alert_id && alert.status == AlertStatus.Active)
  let remaining := st.alerts.filter (fun alert => alert.id ≠ alert_id)
  let deleted := remaining.length ≠ st.alerts.length
  if deleted then
    match deleted_alert with
    | some alert =>
      (true, { alerts := remaining, dismissed := mark_alert_dismissed st.dismissed now alert })
    | none => (true, { alerts := remaining, dismissed := st.dismissed })
  else (false, { alerts := remaining, dismissed := st.dismissed })

/-! ## Event pipeline query (storage/mod.rs `EventStore::list_events`) -/

/-- The per-row filter chain of `list_events` (storage/mod.rs:374-402):
case-insensitive equality on event_type and sensor, case-insensitive
substring over message / process.image_name / process.image_path.  The
filters arrive already trimmed and lowercased (`none` = absent/empty). -/
def event_row_matches (event_type_filter sensor_filter search_filter : Option String)
    (event : EventEnvelope) : Bool :=
  (match event_type_filter with
    | none => true
    | some filter => strToLower event.event_type == filter)
  && (match sensor_filter with
    | none => true
    | some filter => strToLower event.sensor == filter)
  && (match search_filter with
    | none => true
    | some filter =>
      strContainsSub (strToLower event.message) filter
        || (event.process.map (fun proc =>
            strContainsSub (strToLower proc.image_name) filter
              || strContainsSub (strToLower (proc.image_path.getD "")) filter)).getD false)

/-- The normalisation `filter.trim().to_lowercase()` with empty filters
dropped (storage/mod.rs:353-361). -/
def normalize_filter (filter : Option String) : Option String :=
  (filter.map (fun value => strToLower (strTrim value))).filter (fun value => value != "")

/-- The scan loop of `list_events` (storage/mod.rs:363-408): walk the
fetched rows, keep matching rows, and break once the output has reached
`limit` entries (checked after each push).  `taken` is the output length
accumulated so far. -/
def scan_events (passes : EventEnvelope → Bool) (limit : Nat) :
    List EventEnvelope → Nat → List EventEnvelope
  | [], _ => []
  | event :: rest, taken =>
    if passes event then
      if limit ≤ taken + 1 then [event]
      else event :: scan_events passes limit rest (taken + 1)
    else scan_events passes limit rest taken

/-- The `ORDER BY timestamp_utc DESC` read of the events table, modelled
as a stable newest-first sort of the stored rows. -/
def events_newest_first (rows : List EventEnvelope) : List EventEnvelope :=
  rows.insertionSort (fun a b => b.timestamp_utc ≤ a.timestamp_utc)

/-- `EventStore::list_events` (storage/mod.rs:337-411): rows are fetched
newest-first with `LIMIT min(max(limit*5, 200), 5000)`, then filtered with
early exit at `limit` accepted rows.  (Rows that fail to deserialize
cannot arise in the model.) -/
def list_events (rows : List EventEnvelope) (limit : Nat)
    (event_type sensor search : Option String) : List EventEnvelope :=
  let fetch_limit := min (max (limit * 5) 200) 5000
  let fetched := (events_newest_first rows).take fetch_limit
  scan_events
    (event_row_matches (normalize_filter event_type) (normalize_filter sensor)
      (normalize_filter search))
    limit fetched 0

/-- The query contract exactly as the claim words it: the same pipeline
but scanning only `min(limit × 5, 5000)` most recent rows (no 200-row
floor). -/
def list_events_claim (rows : List EventEnvelope) (limit : Nat)
    (event_type sensor search : Option String) : List EventEnvelope :=
  let fetch_limit := min (limit * 5) 5000
  let fetched := (events_newest_first rows).take fetch_limit
  scan_events
    (event_row_matches (normalize_filter event_type) (normalize_filter sensor)
      (normalize_filter search))
    limit fetched 0

/-! ## Claim C4: verdict classifier table -/

/-- Claim C4: `classify_threat_verdict` returns Benign for internal
processes regardless of the other inputs; for Legitimate base level,
LowRisk iff score ≥ 55 else Benign; ConfirmedMalicious for Suspicious ∧
Unknown trust ∧ score ≥ 95 ∧ correlations ≥ 2; LikelyMalicious for
Suspicious ∧ Unknown trust ∧ score ≥ 86 ∧ correlations ≥ 1; Suspicious
for Suspicious ∧ score ≥ 70; LowRisk for score ≥ 35; otherwise Benign —
i.e. it agrees everywhere with the claim's cascade
`classify_threat_verdict_claim`. -/
theorem classify_threat_verdict_matches_claim (score : Nat) (base_level : RiskLevel)
    (trust_level : TrustLevel) (correlation_count : Nat) (internal_process : Bool) :
    classify_threat_verdict score base_level trust_level correlation_count internal_process
      = classify_threat_verdict_claim score base_level trust_level correlation_count
          internal_process := by
  cases internal_process <;> cases base_level <;> cases trust_level <;>
    simp only [classify_threat_verdict, classify_threat_verdict_claim] <;>
    simp only [reduceCtorEq, and_true, and_false, true_and, false_and, if_false, if_true,
      not_false_iff, and_self] <;>
    split_ifs <;> first | rfl | omega

/-! ## Claim C6: risk score composition -/

/-- Claim C6 counterexample: the correlation bonuses are summed as a
16-bit integer, which wraps for a 258-element bonus list totalling
65537; the code then computes 50 + min(1, 22) = 51 while the claimed
formula min(100, base + min(sum, 22)) gives 72. -/
theorem compute_risk_score_wrap_cex :
    compute_risk_score 50 (List.replicate 257 255 ++ [2]) = 51
      ∧ min 100 (50 + min (List.replicate 257 255 ++ [2]).sum 22) = 72 := by
  have hsum : (List.replicate 257 255 ++ [2] : List Nat).sum = 65537 := by
    rw [List.sum_append, List.sum_replicate, smul_eq_mul]
    decide
  constructor
  · unfold compute_risk_score
    rw [hsum]
    decide
  · rw [hsum]
    decide

/-- Claim C6 (amended): whenever the bonus total fits in 16 bits — as at
every call site, which passes at most three bonuses of 4, 8 and 6 —
`compute_risk_score(base, bonuses)` equals
`min(100, base + min(sum bonuses, 22))`: the bonuses are summed, capped
at 22, added to the base score, and the result is capped at 100. -/
theorem compute_risk_score_formula (base_score : Nat) (correlation_bonuses : List Nat)
    (hbase : base_score ≤ 255) (hsum : correlation_bonuses.sum < 65536) :
    compute_risk_score base_score correlation_bonuses
      = min 100 (base_score + min correlation_bonuses.sum 22) := by
  unfold compute_risk_score
  rw [Nat.mod_eq_of_lt hsum]
  simp only [Nat.min_def]
  split_ifs <;> omega

/-- Witness for claim C6 at base 50 and the call-site bonus list
[4, 8, 6]: the hypotheses hold and the formula evaluates to 68. -/
theorem compute_risk_score_formula_witness :
    50 ≤ 255 ∧ ([4, 8, 6] : List Nat).sum < 65536
      ∧ compute_risk_score 50 [4, 8, 6] = min 100 (50 + min ([4, 8, 6] : List Nat).sum 22) :=
  ⟨by decide, by decide, compute_risk_score_formula 50 [4, 8, 6] (by decide) (by decide)⟩

/-! ## Claim C1: base alert construction -/

/-- Claim C1 counterexample: for a metric whose assessment level is
Suspicious with cpu_spike = true, `build_alert` branches on the cpu-spike
flag first and emits a `cpu_spike` alert with severity Warn — not the
`suspicious_process`/Critical alert the claim requires (the code never
skips the cpu-spike path for Suspicious assessments). -/
theorem build_alert_spike_precedence_cex :
    (build_alert
        { pid := 1234, ppid := none, name := "evil.exe", exe_path := none, user := none,
          cpu_pct := 0, trust_level := TrustLevel.Unknown, trust_label := none,
          suspicion := { level := RiskLevel.Suspicious, score := 100, reasons := [], confidence := 99 / 100 },
          risk_score := 100, verdict := ThreatVerdict.Suspicious }
        { level := RiskLevel.Suspicious, score := 100, reasons := [], confidence := 99 / 100 }
        true 0).map (fun alert => (alert.alert_type, alert.severity))
      = some ("cpu_spike", AlertSeverity.Warn)
    ∧ ("cpu_spike", AlertSeverity.Warn) ≠ ("suspicious_process", AlertSeverity.Critical) := by
  constructor
  · decide
  · decide

/-- Claim C1 (amended): `build_alert` returns None iff the assessment
level is not Suspicious and cpu_spike is false; when cpu_spike is true it
emits a `cpu_spike` alert with severity Warn (taking precedence over the
Suspicious level), and when cpu_spike is false with level Suspicious it
emits a `suspicious_process` alert with severity Critical. -/
theorem build_alert_characterization (metric : ProcessMetric)
    (assessment : SuspicionAssessment) (cpu_spike : Bool) (now : Int) :
    ((build_alert metric assessment cpu_spike now).map
        (fun alert => (alert.alert_type, alert.severity))
      = if cpu_spike then some ("cpu_spike", AlertSeverity.Warn)
        else if assessment.level = RiskLevel.Suspicious then
          some ("suspicious_process", AlertSeverity.Critical)
        else none)
    ∧ ((build_alert metric assessment cpu_spike now = none)
        ↔ (assessment.level ≠ RiskLevel.Suspicious ∧ cpu_spike = false)) := by
  cases cpu_spike <;> by_cases h : assessment.level = RiskLevel.Suspicious <;>
    simp [build_alert, h]

/-! ## Claim C2: CPU-spike sustain test -/

/-- Claim C2 counterexample: with threshold 90, min_samples 10, ratio 1.8,
ten pushed samples of 92 with no prior history yield FALSE on the tenth
push — the prior history is empty (< 5 samples), so the code requires
recent_avg > threshold + 5, i.e. 92 > 95, which fails; the claim asserts
this input yields true. -/
theorem cpu_spike_ten_92_cex :
    (push_cpu_samples
        { threshold_pct := 90, min_consecutive_samples := 10, deviation := 9 / 5 }
        (List.replicate 10 (92 : ℚ))).1 = false := by
  norm_num [push_cpu_samples, update_cpu_and_check_spike, List.replicate]

set_option maxRecDepth 4000 in
/-- Claim C2 (amended): `update_cpu_and_check_spike` stores the pushed
sample (truncating the history to the newest 120) and returns true iff
the stored history length is at least min_consecutive_samples, the most
recent min_consecutive_samples samples are all ≥ threshold_pct, and
either the prior-history length is < 5 and recent_avg > threshold_pct +
5, or the prior-history length is ≥ 5 and recent_avg > prior_avg ×
deviation_ratio (the two arms are guarded by the prior-history length);
in particular ten pushed samples of 96 with no prior history yield true
on the tenth push (96 > 95), whereas ten samples of 92 do not. -/
theorem update_cpu_and_check_spike_characterization (config : CpuSpikeConfig)
    (hist : List ℚ) (sample : ℚ) :
    (update_cpu_and_check_spike config hist sample).2
        = (hist ++ [sample]).drop ((hist ++ [sample]).length - 120)
    ∧ ((update_cpu_and_check_spike config hist sample).1 = true
        ↔ spike_condition config ((update_cpu_and_check_spike config hist sample).2))
    ∧ (push_cpu_samples
        { threshold_pct := 90, min_consecutive_samples := 10, deviation := 9 / 5 }
        (List.replicate 10 (96 : ℚ))).1 = true := by
  have hsnd : (update_cpu_and_check_spike config hist sample).2
      = (hist ++ [sample]).drop ((hist ++ [sample]).length - 120) := by
    simp only [update_cpu_and_check_spike]
    split_ifs <;> rfl
  have hten : (push_cpu_samples
      { threshold_pct := 90, min_consecutive_samples := 10, deviation := 9 / 5 }
      (List.replicate 10 (96 : ℚ))).1 = true := by
    norm_num [push_cpu_samples, update_cpu_and_check_spike, List.replicate]
  refine ⟨hsnd, ?_, hten⟩
  rw [hsnd]
  simp only [update_cpu_and_check_spike, spike_condition]
  split_ifs with h1 h2 h3 <;>
    simp only [Bool.false_eq_true, false_iff, decide_eq_true_eq] <;>
    first
    | (rintro ⟨hlen, -, -⟩
       omega)
    | (rintro ⟨-, hall, -⟩
       exact h2 (List.all_eq_true.mpr (fun v hv => decide_eq_true (hall v hv))))
    | (exact ⟨fun havg => ⟨by omega,
        fun v hv => of_decide_eq_true (List.all_eq_true.mp h2 v hv), Or.inl ⟨h3, havg⟩⟩,
        fun hS => hS.2.2.elim (fun hd => hd.2) (fun hd => absurd hd.1 (by omega))⟩)
    | (exact ⟨fun havg => ⟨by omega,
        fun v hv => of_decide_eq_true (List.all_eq_true.mp h2 v hv), Or.inr ⟨by omega, havg⟩⟩,
        fun hS => hS.2.2.elim (fun hd => absurd hd.1 (by omega)) (fun hd => hd.2)⟩)

/-! ## Claim C7: assessment thresholds and confidence -/

lemma level_for_suspicious_iff (s t1 t2 : Nat) :
    level_for s t1 t2 = RiskLevel.Suspicious ↔ t1 ≤ s := by
  unfold level_for
  split_ifs <;> simp_all

lemma level_for_unknown_iff (s t1 t2 : Nat) :
    level_for s t1 t2 = RiskLevel.Unknown ↔ (s < t1 ∧ t2 ≤ s) := by
  unfold level_for
  split_ifs <;> simp_all

lemma level_for_legitimate_iff (s t1 t2 : Nat) :
    level_for s t1 t2 = RiskLevel.Legitimate ↔ (s < t1 ∧ s < t2) := by
  unfold level_for
  split_ifs <;> simp_all

/-- Claim C7: `assess_process` assigns level Suspicious iff the
accumulated score is at or above the profile's suspicious threshold
(Conservative 85, Balanced 70, Aggressive 55), Unknown iff below that
but at or above the unknown threshold (45 / 35 / 25), Legitimate
otherwise, and sets confidence = clamp(score/100, 0.1, 0.99); in
particular on the Conservative thresholds score 84 gives Unknown and 85
Suspicious, and on the Aggressive thresholds 24 gives Legitimate, 25
Unknown, 54 Unknown, 55 Suspicious. -/
theorem assess_process_threshold_confidence (metric : ProcessMetric)
    (parent_name : Option String) (is_signed : Option Bool) (cpu_spike : Bool)
    (profile : DetectionProfile) :
    ((assess_process metric parent_name is_signed cpu_spike profile).level = RiskLevel.Suspicious
      ↔ (profile_thresholds profile).1
          ≤ (assess_process metric parent_name is_signed cpu_spike profile).score)
    ∧ ((assess_process metric parent_name is_signed cpu_spike profile).level = RiskLevel.Unknown
      ↔ ((assess_process metric parent_name is_signed cpu_spike profile).score
            < (profile_thresholds profile).1
        ∧ (profile_thresholds profile).2
            ≤ (assess_process metric parent_name is_signed cpu_spike profile).score))
    ∧ ((assess_process metric parent_name is_signed cpu_spike profile).level = RiskLevel.Legitimate
      ↔ (assess_process metric parent_name is_signed cpu_spike profile).score
          < (profile_thresholds profile).2)
    ∧ (assess_process metric parent_name is_signed cpu_spike profile).confidence
        = ratClamp
            (((assess_process metric parent_name is_signed cpu_spike profile).score : ℚ) / 100)
            (1 / 10) (99 / 100)
    ∧ profile_thresholds DetectionProfile.Conservative = (85, 45)
    ∧ profile_thresholds DetectionProfile.Balanced = (70, 35)
    ∧ profile_thresholds DetectionProfile.Aggressive = (55, 25)
    ∧ level_for 84 85 45 = RiskLevel.Unknown
    ∧ level_for 85 85 45 = RiskLevel.Suspicious
    ∧ level_for 24 55 25 = RiskLevel.Legitimate
    ∧ level_for 25 55 25 = RiskLevel.Unknown
    ∧ level_for 54 55 25 = RiskLevel.Unknown
    ∧ level_for 55 55 25 = RiskLevel.Suspicious := by
  have hl : (assess_process metric parent_name is_signed cpu_spike profile).level
      = level_for (assess_process metric parent_name is_signed cpu_spike profile).score
          (profile_thresholds profile).1 (profile_thresholds profile).2 := rfl
  refine ⟨?_, ?_, ?_, rfl, rfl, rfl, rfl,
    by decide, by decide, by decide, by decide, by decide, by decide⟩
  · rw [hl, level_for_suspicious_iff]
  · rw [hl, level_for_unknown_iff]
  · rw [hl, level_for_legitimate_iff]
    cases profile <;> simp only [profile_thresholds] <;> omega

/-! ## Claim C3: response action policy gating -/

lemma safe_mode_message_ne_audit (x p : String) :
    ("safe mode blocked action on critical process " ++ x ++ " (" ++ p ++ ")")
      ≠ "automatic constrain blocked because policy mode is audit" := by
  intro h
  have h2 := congrArg (fun t => t.data.take 1) h
  simp only [String.data_append, List.append_assoc] at h2
  rw [List.take_append_of_le_length (by decide)] at h2
  exact absurd h2 (by decide)

/-- Claim C3: on an existing pid, `run_response_action` checks its policy
preconditions in order: (1) automatic with mode ≠ Constrain fails with
"automatic constrain blocked because policy mode is audit", and the same
call with automatic = false never produces that error; (2) otherwise,
with safe_mode on and a critical process name/path (e.g. "lsass.exe"),
it fails with the safe-mode policy-denied error regardless of automatic;
(3) otherwise a TerminateProcess action with allow_terminate = false
fails with the terminate-blocked error. -/
theorem run_response_action_guard_order
    (metrics : List ProcessMetric) (policy : ResponsePolicy)
    (cooldowns : List (String × Int)) (now : Int) (pid : Nat)
    (action_type : ResponseActionType) (reason : Option String)
    (execution : Except String String) (metric : ProcessMetric)
    (hfind : metrics.find? (fun item => item.pid == pid) = some metric) :
    (policy.mode ≠ ResponseMode.Constrain →
      run_response_action metrics policy cooldowns now pid action_type reason true execution
        = Except.error "automatic constrain blocked because policy mode is audit")
    ∧ (run_response_action metrics policy cooldowns now pid action_type reason false execution
        ≠ Except.error "automatic constrain blocked because policy mode is audit")
    ∧ (∀ automatic, ¬ (automatic = true ∧ policy.mode ≠ ResponseMode.Constrain) →
        policy.safe_mode = true →
        is_critical_process metric.name metric.exe_path = true →
        run_response_action metrics policy cooldowns now pid action_type reason automatic execution
          = Except.error ("safe mode blocked action on critical process "
              ++ metric.name ++ " (" ++ toString metric.pid ++ ")"))
    ∧ (∀ automatic, ¬ (automatic = true ∧ policy.mode ≠ ResponseMode.Constrain) →
        ¬ (policy.safe_mode = true ∧ is_critical_process metric.name metric.exe_path = true) →
        action_type = ResponseActionType.TerminateProcess →
        policy.allow_terminate = false →
        run_response_action metrics policy cooldowns now pid action_type reason automatic execution
          = Except.error "terminate action blocked by policy (allow_terminate=false)")
    ∧ is_critical_process "lsass.exe" none = true := by
  refine ⟨?_, ?_, ?_, ?_, by rfl⟩
  · intro hmode
    simp only [run_response_action, hfind]
    rw [if_pos ⟨trivial, hmode⟩]
  · simp only [run_response_action, hfind]
    simp only [Bool.false_eq_true, false_and, if_false]
    split_ifs
    · intro h
      simp only [Except.error.injEq] at h
      exact safe_mode_message_ne_audit _ _ h
    · intro h
      simp only [Except.error.injEq] at h
      exact absurd h (by decide)
    · intro h
      exact Except.noConfusion h
  · intro automatic hnot hsafe hcrit
    simp only [run_response_action, hfind]
    rw [if_neg hnot, if_pos ⟨hsafe, hcrit⟩]
  · intro automatic hnot1 hnot2 hterm hallow
    simp only [run_response_action, hfind]
    rw [if_neg hnot1, if_neg hnot2, if_pos ⟨hterm, by rw [hallow]⟩]

/-- Witness for claim C3: a one-process snapshot under the default Audit
policy; the automatic call is rejected with the audit-mode error. -/
theorem run_response_action_guard_order_witness :
    run_response_action
        [{ pid := 9, ppid := none, name := "foo.exe", exe_path := none, user := none,
           cpu_pct := 0, trust_level := TrustLevel.Unknown, trust_label := none,
           suspicion := { level := RiskLevel.Legitimate, score := 0, reasons := [], confidence := 0 },
           risk_score := 0, verdict := ThreatVerdict.Benign }]
        { mode := ResponseMode.Audit, auto_constrain_threshold := 95, safe_mode := true,
          allow_terminate := false, cooldown_seconds := 180 }
        [] 0 9 ResponseActionType.SuspendProcess none true (Except.ok "done")
      = Except.error "automatic constrain blocked because policy mode is audit" :=
  (run_response_action_guard_order _ _ _ _ _ _ _ _ _ (by rfl)).1 (by decide)

/-! ## Claim C10: cooldown recorded even on actuator failure -/

/-- Claim C10: an automatic `run_response_action` call that passes every
policy guard and dispatches a FAILING actuator still returns the record
with success = false and still stamps the (pid, action_type) cooldown
entry with the current time; consequently a second automatic action of
the same type on the same pid within cooldown_seconds is denied by the
cooldown guardrail even though the first action did not succeed. -/
theorem run_response_action_cooldown_after_failure
    (metrics : List ProcessMetric) (policy : ResponsePolicy)
    (cooldowns : List (String × Int)) (now : Int) (pid : Nat)
    (action_type : ResponseActionType) (reason : Option String) (err : String)
    (metric : ProcessMetric)
    (hfind : metrics.find? (fun item => item.pid == pid) = some metric)
    (hmode : policy.mode = ResponseMode.Constrain)
    (hsafe : policy.safe_mode = true → is_critical_process metric.name metric.exe_path = false)
    (hterm : action_type = ResponseActionType.TerminateProcess → policy.allow_terminate = true)
    (hcool : is_action_allowed_by_cooldown cooldowns now pid action_type
        policy.cooldown_seconds = true) :
    (run_response_action metrics policy cooldowns now pid action_type reason true
          (Except.error err)).toOption.map (fun result => (result.1.success, result.2))
        = some (false, update_action_cooldown cooldowns now pid action_type)
      ∧ (update_action_cooldown cooldowns now pid action_type).lookup
          (cooldown_key pid action_type) = some now
      ∧ ∀ (metrics2 : List ProcessMetric) (metric2 : ProcessMetric)
          (reason2 : Option String) (execution2 : Except String String) (now2 : Int),
          metrics2.find? (fun item => item.pid == pid) = some metric2 →
          (policy.safe_mode = true → is_critical_process metric2.name metric2.exe_path = false) →
          now2 - now < (policy.cooldown_seconds : Int) →
          run_response_action metrics2 policy
              (update_action_cooldown cooldowns now pid action_type) now2 pid action_type
              reason2 true execution2
            = Except.error "automatic action skipped by cooldown guardrail" := by
  have hnot1 : ¬ (True ∧ policy.mode ≠ ResponseMode.Constrain) := by
    rintro ⟨-, hne⟩
    exact hne hmode
  have hnot2 : ¬ (policy.safe_mode = true
      ∧ is_critical_process metric.name metric.exe_path = true) := by
    rintro ⟨hs, hc⟩
    rw [hsafe hs] at hc
    exact Bool.noConfusion hc
  have hnot3 : ¬ (action_type = ResponseActionType.TerminateProcess
      ∧ policy.allow_terminate = false) := by
    rintro ⟨ht, hal⟩
    rw [hterm ht] at hal
    exact Bool.noConfusion hal
  have hnot4 : ¬ (True ∧ is_action_allowed_by_cooldown cooldowns now pid action_type
      policy.cooldown_seconds = false) := by
    rintro ⟨-, hal⟩
    rw [hcool] at hal
    exact Bool.noConfusion hal
  refine ⟨?_, ?_, ?_⟩
  · simp only [run_response_action, hfind]
    rw [if_neg hnot1, if_neg hnot2, if_neg hnot3, if_neg hnot4]
    rfl
  · simp only [update_action_cooldown, List.lookup, beq_self_eq_true]
  · intro metrics2 metric2 reason2 execution2 now2 hfind2 hsafe2 hlt
    have hnot2b : ¬ (policy.safe_mode = true
        ∧ is_critical_process metric2.name metric2.exe_path = true) := by
      rintro ⟨hs, hc⟩
      rw [hsafe2 hs] at hc
      exact Bool.noConfusion hc
    have hdenied : is_action_allowed_by_cooldown
        (update_action_cooldown cooldowns now pid action_type) now2 pid action_type
        policy.cooldown_seconds = false := by
      simp only [is_action_allowed_by_cooldown, update_action_cooldown, List.lookup,
        beq_self_eq_true]
      rw [decide_eq_false_iff_not]
      omega
    simp only [run_response_action, hfind2]
    rw [if_neg hnot1, if_neg hnot2b, if_neg hnot3, if_pos ⟨trivial, hdenied⟩]

/-- Concrete non-critical process used by the claim C10 witness. -/
def cooldownWitnessMetric : ProcessMetric :=
  { pid := 9, ppid := none, name := "foo.exe", exe_path := none, user := none,
    cpu_pct := 0, trust_level := TrustLevel.Unknown, trust_label := none,
    suspicion := { level := RiskLevel.Legitimate, score := 0, reasons := [], confidence := 0 },
    risk_score := 97, verdict := ThreatVerdict.ConfirmedMalicious }

/-- Constrain-mode policy used by the claim C10 witness. -/
def cooldownWitnessPolicy : ResponsePolicy :=
  { mode := ResponseMode.Constrain, auto_constrain_threshold := 95, safe_mode := true,
    allow_terminate := false, cooldown_seconds := 180 }

/-- Witness for claim C10: a failed automatic suspend on pid 9 at time 0
sets the cooldown, and a second automatic suspend at time 50 (< 180) is
denied. -/
theorem run_response_action_cooldown_after_failure_witness :
    (run_response_action [cooldownWitnessMetric] cooldownWitnessPolicy [] 0 9
          ResponseActionType.SuspendProcess none true (Except.error "boom")).toOption.map
        (fun result => (result.1.success, result.2))
      = some (false, update_action_cooldown [] 0 9 ResponseActionType.SuspendProcess)
    ∧ run_response_action [cooldownWitnessMetric] cooldownWitnessPolicy
        (update_action_cooldown [] 0 9 ResponseActionType.SuspendProcess) 50 9
        ResponseActionType.SuspendProcess none true (Except.ok "later")
      = Except.error "automatic action skipped by cooldown guardrail" := by
  have h := run_response_action_cooldown_after_failure [cooldownWitnessMetric]
    cooldownWitnessPolicy [] 0 9 ResponseActionType.SuspendProcess none "boom"
    cooldownWitnessMetric (by rfl) rfl (fun _ => by rfl)
    (fun hx => ResponseActionType.noConfusion hx) rfl
  exact ⟨h.1, h.2.2 [cooldownWitnessMetric] cooldownWitnessMetric none (Except.ok "later") 50
    (by rfl) (fun _ => by rfl) (by decide)⟩

/-! ## Claim C9: alert de-duplication -/

lemma alert_history_any (alerts : List Alert) (p : Alert → Bool) :
    (alert_history alerts).any p = alerts.any p := by
  rw [Bool.eq_iff_iff]
  simp only [alert_history, List.any_eq_true, List.mem_insertionSort]

/-- Shared acceptance lemma for `add_alert_if_new`: with the suppression
check returning false and no stored alert matching (pid, alert_type,
title) within 120 seconds, the alert is accepted and appended. -/
lemma add_alert_if_new_accepts_aux (st : AlertState) (now : Int) (alert : Alert)
    (hsup : (is_alert_suppressed st.dismissed now alert).1 = false)
    (hold : ∀ existing ∈ st.alerts,
      existing.pid = alert.pid → existing.alert_type = alert.alert_type →
      existing.title = alert.title → ¬ (|now - existing.timestamp| ≤ 120)) :
    (add_alert_if_new st now alert).1 = true
      ∧ (add_alert_if_new st now alert).2.alerts = st.alerts ++ [alert] := by
  simp only [add_alert_if_new]
  rw [if_neg (by rw [hsup]; exact Bool.noConfusion)]
  have hdup : ((alert_history st.alerts).any (fun existing =>
      existing.pid == alert.pid
        && existing.alert_type == alert.alert_type
        && existing.title == alert.title
        && is_recent existing.timestamp 120 now)) = false := by
    rw [alert_history_any]
    refine Bool.eq_false_iff.mpr ?_
    intro hany
    rw [List.any_eq_true] at hany
    obtain ⟨x, hx, hpred⟩ := hany
    simp only [is_recent, Bool.and_eq_true, beq_iff_eq, decide_eq_true_eq] at hpred
    exact hold x hx hpred.1.1.1 hpred.1.1.2 hpred.1.2 hpred.2
  rw [if_neg (by rw [hdup]; exact Bool.noConfusion)]
  exact ⟨rfl, rfl⟩

/-- Claim C9 counterexample: with an EMPTY alert store (so every matching
stored alert is vacuously older than 120 seconds) but the alert's
signature dismissed 100 seconds ago, `add_alert_if_new` still returns
false — the claim's acceptance condition ("when every such matching
alert is older than 120 seconds, the new alert is accepted") omits the
dismissal-suppression guard that runs first. -/
theorem add_alert_if_new_suppressed_cex :
    (add_alert_if_new
        { alerts := [],
          dismissed := [("cpu_spike:5:t:warn", 0)] }
        100
        { id := "x", alert_type := "cpu_spike", severity := AlertSeverity.Warn, pid := some 5,
          title := "T", description := "", evidence := [], timestamp := 90,
          status := AlertStatus.Active }).1 = false := by
  rfl

/-- Claim C9 (amended): `add_alert_if_new` rejects (returns false with
the alert store unchanged) whenever some stored alert matches on
(pid, alert_type, title) with a timestamp within 120 seconds of now; and
when every such matching alert is older than 120 seconds AND the alert's
signature is not suppressed by a recent dismissal, the alert is accepted
and appended to the store. -/
theorem add_alert_if_new_dedup :
    (∀ (st : AlertState) (now : Int) (alert existing : Alert),
      existing ∈ st.alerts →
      existing.pid = alert.pid → existing.alert_type = alert.alert_type →
      existing.title = alert.title → |now - existing.timestamp| ≤ 120 →
      (add_alert_if_new st now alert).1 = false
        ∧ (add_alert_if_new st now alert).2.alerts = st.alerts)
    ∧ (∀ (st : AlertState) (now : Int) (alert : Alert),
      (is_alert_suppressed st.dismissed now alert).1 = false →
      (∀ existing ∈ st.alerts,
        existing.pid = alert.pid → existing.alert_type = alert.alert_type →
        existing.title = alert.title → ¬ (|now - existing.timestamp| ≤ 120)) →
      (add_alert_if_new st now alert).1 = true
        ∧ (add_alert_if_new st now alert).2.alerts = st.alerts ++ [alert]) := by
  constructor
  · intro st now alert existing hmem hpid htype htitle hrecent
    simp only [add_alert_if_new]
    by_cases hsup : (is_alert_suppressed st.dismissed now alert).1 = true
    · rw [if_pos hsup]
      exact ⟨rfl, rfl⟩
    · rw [if_neg hsup]
      have hdup : ((alert_history st.alerts).any (fun existing =>
          existing.pid == alert.pid
            && existing.alert_type == alert.alert_type
            && existing.title == alert.title
            && is_recent existing.timestamp 120 now)) = true := by
        rw [alert_history_any, List.any_eq_true]
        refine ⟨existing, hmem, ?_⟩
        simp only [is_recent, Bool.and_eq_true, beq_iff_eq, decide_eq_true_eq]
        exact ⟨⟨⟨hpid, htype⟩, htitle⟩, hrecent⟩
      rw [if_pos hdup]
      exact ⟨rfl, rfl⟩
  · exact add_alert_if_new_accepts_aux

/-- Alert used by the claim C9 witness. -/
def dedupWitnessAlert : Alert :=
  { id := "y", alert_type := "cpu_spike", severity := AlertSeverity.Warn, pid := some 5,
    title := "T", description := "", evidence := [], timestamp := 0,
    status := AlertStatus.Active }

/-- Witness for claim C9: on an empty store with no dismissals the
acceptance branch applies and stores the alert. -/
theorem add_alert_if_new_dedup_witness :
    (add_alert_if_new { alerts := [], dismissed := [] } 0 dedupWitnessAlert).1 = true
    ∧ (add_alert_if_new { alerts := [], dismissed := [] } 0 dedupWitnessAlert).2.alerts
      = [dedupWitnessAlert] :=
  add_alert_if_new_dedup.2 { alerts := [], dismissed := [] } 0 dedupWitnessAlert
    (by rfl) (fun x hx => absurd hx (List.not_mem_nil x))

/-! ## Claim C8: dismissal suppression window -/

lemma lookup_none_of_keys_ne {l : List (String × Int)} {k : String}
    (h : ∀ kv ∈ l, ¬ (kv.1 = k)) : l.lookup k = none := by
  induction l with
  | nil => rfl
  | cons kv rest ih =>
    have hk : (k == kv.1) = false :=
      beq_eq_false_iff_ne.mpr (fun e => h kv (List.mem_cons_self kv rest) e.symm)
    obtain ⟨a, b⟩ := kv
    simp only [List.lookup, hk]
    exact ih (fun x hx => h x (List.mem_cons_of_mem ⟨a, b⟩ hx))

/-- Claim C8: deleting an active alert records its signature
"{alert_type}:{pid|0}:{lowercased title}:{lowercased severity}" in the
dismissed map with the deletion time t0; for the following 300 seconds
(now - t0 < 300) `add_alert_if_new` rejects every alert carrying the same
signature without touching the alert store, and once more than 300
seconds have elapsed (and no stored alert duplicates it within 120
seconds) the alert is accepted again. -/
theorem alert_dismissal_suppression_window
    (st : AlertState) (target : Alert) (t0 : Int) (other : Alert)
    (hmem : target ∈ st.alerts)
    (hactive : target.status = AlertStatus.Active)
    (huniq : ∀ alert ∈ st.alerts, alert.id = target.id → alert = target)
    (hsig : alert_signature other = alert_signature target) :
    (delete_alert st t0 target.id).1 = true
    ∧ (delete_alert st t0 target.id).2.dismissed.lookup (alert_signature target) = some t0
    ∧ (∀ now : Int, now - t0 < 300 →
        (add_alert_if_new (delete_alert st t0 target.id).2 now other).1 = false
        ∧ (add_alert_if_new (delete_alert st t0 target.id).2 now other).2.alerts
            = (delete_alert st t0 target.id).2.alerts)
    ∧ (∀ now : Int, 300 < now - t0 →
        (∀ existing ∈ (delete_alert st t0 target.id).2.alerts,
          existing.pid = other.pid → existing.alert_type = other.alert_type →
          existing.title = other.title → ¬ (|now - existing.timestamp| ≤ 120)) →
        (add_alert_if_new (delete_alert st t0 target.id).2 now other).1 = true
        ∧ (add_alert_if_new (delete_alert st t0 target.id).2 now other).2.alerts
            = (delete_alert st t0 target.id).2.alerts ++ [other]) := by
  have hfound : (alert_history st.alerts).find? (fun alert =>
      alert.id == target.id && alert.status == AlertStatus.Active) = some target := by
    have hsome : ((alert_history st.alerts).find? (fun alert =>
        alert.id == target.id && alert.status == AlertStatus.Active)).isSome := by
      rw [List.find?_isSome]
      refine ⟨target, ?_, ?_⟩
      · simp only [alert_history, List.mem_insertionSort]
        exact hmem
      · simp [hactive]
    obtain ⟨a, ha⟩ := Option.isSome_iff_exists.mp hsome
    have hpa := List.find?_some ha
    have hamem : a ∈ st.alerts := by
      have := List.mem_of_find?_eq_some ha
      simpa only [alert_history, List.mem_insertionSort] using this
    simp only [Bool.and_eq_true, beq_iff_eq] at hpa
    rw [ha, huniq a hamem hpa.1]
  have hlt : (st.alerts.filter (fun alert => alert.id ≠ target.id)).length
      < st.alerts.length := by
    rw [List.length_filter_lt_length_iff_exists]
    exact ⟨target, hmem, by simp⟩
  have hdel_eq : delete_alert st t0 target.id
      = (true, AlertState.mk (st.alerts.filter (fun alert => alert.id ≠ target.id))
          (mark_alert_dismissed st.dismissed t0 target)) := by
    simp only [delete_alert]
    rw [hfound, if_pos (Nat.ne_of_lt hlt)]
  refine ⟨by rw [hdel_eq], ?_, ?_, ?_⟩
  · rw [hdel_eq]
    simp only [mark_alert_dismissed, List.lookup, beq_self_eq_true]
  · intro now hnow
    have hsup : (is_alert_suppressed (delete_alert st t0 target.id).2.dismissed now other).1
        = true := by
      rw [hdel_eq]
      simp only [is_alert_suppressed, mark_alert_dismissed, hsig]
      rw [List.filter_cons, if_pos (decide_eq_true hnow)]
      simp only [List.lookup, beq_self_eq_true]
      exact decide_eq_true hnow
    simp only [add_alert_if_new]
    rw [if_pos hsup]
    exact ⟨rfl, rfl⟩
  · intro now hnow hold
    have hsup : (is_alert_suppressed (delete_alert st t0 target.id).2.dismissed now other).1
        = false := by
      rw [hdel_eq]
      simp only [is_alert_suppressed, mark_alert_dismissed, hsig]
      rw [List.filter_cons,
        if_neg (by simp only [decide_eq_true_eq]; omega)]
      have hnone : ((st.dismissed.filter (fun kv => kv.1 ≠ alert_signature target)).filter
          (fun kv => now - kv.2 < 300)).lookup (alert_signature target) = none := by
        apply lookup_none_of_keys_ne
        intro kv hkv
        have h1 : kv ∈ st.dismissed.filter (fun kv => kv.1 ≠ alert_signature target) :=
          List.mem_of_mem_filter hkv
        have h2 := List.of_mem_filter h1
        exact of_decide_eq_true h2
      rw [hnone]
    exact add_alert_if_new_accepts_aux _ now other hsup hold

/-- Active alert deleted by the claim C8 witness. -/
def suppressionWitnessTarget : Alert :=
  { id := "a1", alert_type := "suspicious_process", severity := AlertSeverity.Critical,
    pid := some 7, title := "Bad process", description := "d", evidence := [], timestamp := 0,
    status := AlertStatus.Active }

/-- Same-signature alert re-submitted by the claim C8 witness. -/
def suppressionWitnessOther : Alert :=
  { id := "a2", alert_type := "suspicious_process", severity := AlertSeverity.Critical,
    pid := some 7, title := "Bad process", description := "d2", evidence := [], timestamp := 350,
    status := AlertStatus.Active }

/-- Witness for claim C8: delete at time 0, rejected at time 100,
accepted at time 400. -/
theorem alert_dismissal_suppression_window_witness :
    (delete_alert (AlertState.mk [suppressionWitnessTarget] []) 0
        suppressionWitnessTarget.id).1 = true
    ∧ ((delete_alert (AlertState.mk [suppressionWitnessTarget] []) 0
        suppressionWitnessTarget.id).2.dismissed.lookup
        (alert_signature suppressionWitnessTarget)) = some 0
    ∧ (add_alert_if_new (delete_alert (AlertState.mk [suppressionWitnessTarget] []) 0
        suppressionWitnessTarget.id).2 100 suppressionWitnessOther).1 = false
    ∧ (add_alert_if_new (delete_alert (AlertState.mk [suppressionWitnessTarget] []) 0
        suppressionWitnessTarget.id).2 400 suppressionWitnessOther).1 = true := by
  have h := alert_dismissal_suppression_window (AlertState.mk [suppressionWitnessTarget] [])
    suppressionWitnessTarget 0 suppressionWitnessOther
    (List.mem_singleton.mpr rfl) rfl
    (fun x hx _ => List.mem_singleton.mp hx) rfl
  have hempty : (delete_alert (AlertState.mk [suppressionWitnessTarget] []) 0
      suppressionWitnessTarget.id).2.alerts = [] := by rfl
  refine ⟨h.1, h.2.1, (h.2.2.1 100 (by decide)).1, (h.2.2.2 400 (by decide) ?_).1⟩
  intro x hx
  exact absurd (hempty ▸ hx) (List.not_mem_nil x)

/-! ## Claim C5: event query contract -/

lemma scan_events_eq (p : EventEnvelope → Bool) (limit : Nat) :
    ∀ (l : List EventEnvelope) (taken : Nat), taken < max 1 limit →
      scan_events p limit l taken = (l.filter p).take (max 1 limit - taken) := by
  intro l
  induction l with
  | nil =>
    intro taken h
    simp only [scan_events, List.filter_nil, List.take_nil]
  | cons e rest ih =>
    intro taken h
    simp only [scan_events, List.filter_cons]
    by_cases hp : p e = true
    · rw [if_pos hp, if_pos hp]
      by_cases hstop : limit ≤ taken + 1
      · rw [if_pos hstop]
        have hone : max 1 limit - taken = 1 := by omega
        rw [hone]
        rfl
      · rw [if_neg hstop, ih (taken + 1) (by omega)]
        have hsucc : max 1 limit - taken = (max 1 limit - (taken + 1)) + 1 := by omega
        rw [hsucc, List.take_succ_cons]
    · rw [if_neg hp, if_neg hp, ih taken h]

instance : IsTotal EventEnvelope (fun a b => b.timestamp_utc ≤ a.timestamp_utc) :=
  ⟨fun a b => le_total b.timestamp_utc a.timestamp_utc⟩

instance : IsTrans EventEnvelope (fun a b => b.timestamp_utc ≤ a.timestamp_utc) :=
  ⟨fun _ _ _ hab hbc => le_trans hbc hab⟩

/-- Claim C5 (amended): `list_events` fetches the newest
min(max(limit × 5, 200), 5000) rows (the claim's min(limit × 5, 5000)
omits the 200-row floor), applies the case-insensitive event_type and
sensor equality filters and the case-insensitive substring search over
message / process.image_name / process.image_path, and returns the first
max(limit, 1) matches (a limit of 0 still returns one match); the result
is newest-first by timestamp_utc. -/
theorem list_events_characterization (rows : List EventEnvelope) (limit : Nat)
    (event_type sensor search : Option String) :
    list_events rows limit event_type sensor search
      = (((events_newest_first rows).take (min (max (limit * 5) 200) 5000)).filter
          (event_row_matches (normalize_filter event_type) (normalize_filter sensor)
            (normalize_filter search))).take (max 1 limit)
    ∧ (list_events rows limit event_type sensor search).length ≤ max 1 limit
    ∧ List.Pairwise (fun a b => b.timestamp_utc ≤ a.timestamp_utc)
        (list_events rows limit event_type sensor search) := by
  have h1 : list_events rows limit event_type sensor search
      = (((events_newest_first rows).take (min (max (limit * 5) 200) 5000)).filter
          (event_row_matches (normalize_filter event_type) (normalize_filter sensor)
            (normalize_filter search))).take (max 1 limit) := by
    simp only [list_events]
    rw [scan_events_eq _ _ _ 0 (by omega), Nat.sub_zero]
  refine ⟨h1, ?_, ?_⟩
  · rw [h1]
    exact List.length_take_le _ _
  · rw [h1]
    have hsorted : List.Pairwise (fun a b => b.timestamp_utc ≤ a.timestamp_utc)
        (events_newest_first rows) :=
      List.sorted_insertionSort _ rows
    have hsub : List.Sublist
        ((((events_newest_first rows).take (min (max (limit * 5) 200) 5000)).filter
          (event_row_matches (normalize_filter event_type) (normalize_filter sensor)
            (normalize_filter search))).take (max 1 limit))
        (events_newest_first rows) :=
      (List.take_sublist _ _).trans ((List.filter_sublist _).trans (List.take_sublist _ _))
    exact List.Pairwise.sublist hsub hsorted

/-- Filler event (event_type "tick") for the claim C5 counterexample. -/
def cexEventRow (i : Int) : EventEnvelope :=
  { event_id := "t" ++ toString i, host_id := "h", timestamp_utc := i, event_type := "tick",
    sensor := "core", severity := EventSeverity.Info, message := "m", process := none,
    network := none, registry := none, rule_hits := [], risk_score := none,
    verdict := none, evidence_refs := [] }

/-- The oldest row, the only one of event_type "boom", for the claim C5
counterexample. -/
def cexBoomRow : EventEnvelope :=
  { event_id := "b", host_id := "h", timestamp_utc := 1, event_type := "boom",
    sensor := "core", severity := EventSeverity.Info, message := "m", process := none,
    network := none, registry := none, rule_hits := [], risk_score := none,
    verdict := none, evidence_refs := [] }

/-- Six rows newest-first for the claim C5 counterexample. -/
def cexEventRows : List EventEnvelope :=
  [cexEventRow 7, cexEventRow 6, cexEventRow 5, cexEventRow 4, cexEventRow 3, cexBoomRow]

/-- Claim C5 counterexample: with limit = 1 the claim allows scanning at
most min(1 × 5, 5000) = 5 most recent rows, so the "boom" row in sixth
position could never be returned (`list_events_claim`, the claim's own
pipeline, returns []); the code's 200-row fetch floor finds and returns
it. -/
theorem list_events_scan_floor_cex :
    (list_events cexEventRows 1 (some "boom") none none).map (fun event => event.event_id)
      = ["b"]
    ∧ list_events_claim cexEventRows 1 (some "boom") none none = []
    ∧ min (1 * 5) 5000 = 5
    ∧ cexEventRows.length = 6 := by
  refine ⟨by rfl, by rfl, by rfl, by rfl⟩

end NyxMonitor
